import Mathlib

/-
Verification development for the recursive-learning / sprint-accountability
engine (src/src/oversight/recursive-learning-core.js and
src/src/oversight/recursive-sprint-accountability-engine.js).

Modelling conventions:
* JavaScript values are embedded as the inductive type `JsVal`; object
  property access on non-objects yields `JsVal.undefined` (as in JS, except for
  `null`/`undefined` receivers, which throw and are modelled with `Option`
  at the one call site where the repository can receive them).
* JavaScript numbers are modelled as exact rationals `ℚ` for the
  verification/critic layers, and as reals `ℝ` for the Elo layer (whose
  expected-score formula uses a real power `10 ^ x`).
* `x || d` on numbers is JS-truthy defaulting: `undefined`, `null` and `0`
  all fall back to `d`.
* Maps keyed by strings are association lists in insertion order, matching
  JS `Map` iteration order; `Map.set` overwrites in place.
* String comparisons in the embedding are value comparisons; JS `===` on two
  object references is modelled as `false` for composite values (distinct
  literals are distinct references at every call site in this repository).
-/

-- Rational arithmetic must evaluate inside concrete counterexamples and
-- witnesses below; restore reducibility of the base operations for that.
attribute [local semireducible] Rat.mul Rat.inv Rat.add Rat.sub Rat.ofScientific

namespace Oversight

/-- Model of a JavaScript runtime value as used by the oversight modules. -/
inductive JsVal where
  | undefined : JsVal
  | null : JsVal
  | bool (b : Bool) : JsVal
  | num (q : ℚ) : JsVal
  | str (s : String) : JsVal
  | arr (xs : List JsVal) : JsVal
  | obj (fields : List (String × JsVal)) : JsVal

/-- JS truthiness: `undefined`, `null`, `false`, `0` and `""` are falsy;
arrays and objects are always truthy. -/
def truthy : JsVal → Bool
  | .undefined => false
  | .null => false
  | .bool b => b
  | .num q => !(q == 0)
  | .str s => !(s == "")
  | .arr _ => true
  | .obj _ => true

/-- Property access `v[k]`; on non-objects it yields `undefined`
(the throwing `null`/`undefined` receivers are handled by `Option` at the
orchestrator boundary). -/
def getField : JsVal → String → JsVal
  | .obj fields, k =>
    match fields.find? (fun p => p.1 == k) with
    | some p => p.2
    | none => .undefined
  | _, _ => .undefined

/-- Set (or overwrite) an object entry, keeping JS property order:
an existing key keeps its position, a new key is appended. -/
def setEntry : List (String × JsVal) → String → JsVal → List (String × JsVal)
  | [], k, x => [(k, x)]
  | (k', v') :: rest, k, x =>
    if k' == k then (k', x) :: rest else (k', v') :: setEntry rest k x

/-- Property assignment `v[k] = x` (a no-op on non-objects, as in
non-strict JS). -/
def objSet (v : JsVal) (k : String) (x : JsVal) : JsVal :=
  match v with
  | .obj fields => .obj (setEntry fields k x)
  | other => other

/-- JS `===` restricted to the comparisons the repository performs:
structural on primitives, `false` across composites (reference equality of
distinct literals). -/
def jsStrictEq : JsVal → JsVal → Bool
  | .undefined, .undefined => true
  | .null, .null => true
  | .bool a, .bool b => a == b
  | .num a, .num b => a == b
  | .str a, .str b => a == b
  | _, _ => false

/-- Numeric view of a value (JS string-to-number coercions are not needed by
the repository: every numeric field holds a number or is absent). -/
def asNum : JsVal → Option ℚ
  | .num q => some q
  | _ => none

/-- JS `v || d` for numeric positions: falsy (absent or zero) falls back. -/
def jsOrQ (v : JsVal) (d : ℚ) : ℚ :=
  match v with
  | .num q => if q = 0 then d else q
  | _ => d

/-- JS `v || d` as a value-level default. -/
def jsOrVal (v d : JsVal) : JsVal :=
  if truthy v then v else d

/-- JS `v.length` for arrays and strings; `undefined` (none) otherwise. -/
def jsLen : JsVal → Option ℕ
  | .arr xs => some xs.length
  | .str s => some s.length
  | _ => none

/-- The string elements of an array value (the repository only ever maps
string-typed goal/pattern arrays). -/
def strsOf : JsVal → List String
  | .arr xs => xs.filterMap (fun x => match x with | .str s => some s | _ => none)
  | _ => []

/-- Elements of an iterable, as consumed by `[...solutions]`:
arrays spread to their elements, strings to their characters. -/
def elemsOf : JsVal → List JsVal
  | .arr xs => xs
  | .str s => s.toList.map (fun c => .str (String.mk [c]))
  | _ => []

/-- The `description` field with the `|| ''` default. -/
def descOf (v : JsVal) : String :=
  match getField v "description" with
  | .str s => s
  | _ => ""

/-- `v.complexity || 0`: absent or zero complexity reads as 0. -/
def complexityOr0 (v : JsVal) : ℚ :=
  jsOrQ (getField v "complexity") 0

/-- Association list lookup (JS `Map.get`). -/
def alistGet? {α : Type} : List (String × α) → String → Option α
  | [], _ => none
  | (k', v) :: rest, k => if k' == k then some v else alistGet? rest k

/-- Association list update (JS `Map.set`): overwrite in place, append if new. -/
def alistSet {α : Type} : List (String × α) → String → α → List (String × α)
  | [], k, v => [(k, v)]
  | (k', v') :: rest, k, v =>
    if k' == k then (k', v) :: rest else (k', v') :: alistSet rest k v

/-- JS `array.slice(-n)`: the last `n` elements (the whole list if shorter). -/
def jsSliceLast {α : Type} (n : ℕ) (l : List α) : List α :=
  l.drop (l.length - n)

/-- ASCII lower-casing of one character (JS `toLowerCase` on the ASCII texts
this repository processes). -/
def lowerChar (c : Char) : Char :=
  if 'A' ≤ c && c ≤ 'Z' then Char.ofNat (c.toNat + 32) else c

/-- JS `text.toLowerCase()`. -/
def toLowerStr (s : String) : String :=
  String.mk (s.toList.map lowerChar)

/-- Split a character list at every whitespace character (empty fragments for
adjacent separators, as `String.split` produces them). -/
def splitWsAux : List Char → List Char → List String
  | [], acc => [String.mk acc.reverse]
  | c :: rest, acc =>
    if c.isWhitespace then String.mk acc.reverse :: splitWsAux rest []
    else splitWsAux rest (c :: acc)

/-- JS `text.split(/\s+/)`, up to empty fragments that every caller filters
away by word length. -/
def splitWs (s : String) : List String :=
  splitWsAux s.toList []

/-- Decimal digit character. -/
def digitChar : ℕ → Char
  | 0 => '0' | 1 => '1' | 2 => '2' | 3 => '3' | 4 => '4'
  | 5 => '5' | 6 => '6' | 7 => '7' | 8 => '8' | _ => '9'

/-- Decimal digits of a natural number (fuel-bounded structural recursion). -/
def natDigits : ℕ → ℕ → List Char
  | 0, _ => []
  | fuel + 1, n =>
    if n < 10 then [digitChar n]
    else natDigits fuel (n / 10) ++ [digitChar (n % 10)]

/-- Render a natural number in decimal. -/
def natToStr (n : ℕ) : String := String.mk (natDigits (n + 1) n)

/-- Render an integer in decimal. -/
def intToStr (i : ℤ) : String :=
  if i < 0 then "-" ++ natToStr i.natAbs else natToStr i.natAbs

/-- Escape a string for JSON serialization (quote and backslash; the
repository's literals contain neither). -/
def jsonEscape (s : String) : String :=
  String.mk (s.toList.flatMap (fun c =>
    if c == '\\' then ['\\', '\\']
    else if c == '\"' then ['\\', '\"']
    else [c]))

/-- Render a rational as JSON renders the corresponding JS number, for the
terminating decimals that occur in this repository. -/
def ratToJson (q : ℚ) : String :=
  if q.den = 1 then intToStr q.num
  else
    -- find the smallest power of ten clearing the denominator (floats always
    -- admit one within 20 digits); fall back to a fraction rendering otherwise
    match (List.range 20).find? (fun k => (q * (10 : ℚ) ^ (k + 1)).den = 1) with
    | some k =>
      let scaled := q * (10 : ℚ) ^ (k + 1)
      let sign := if q < 0 then "-" else ""
      let digits := natToStr scaled.num.natAbs
      let digits := if digits.length < k + 2 then
        String.mk (List.replicate (k + 2 - digits.length) '0') ++ digits else digits
      let intPart := String.mk (digits.toList.take (digits.length - (k + 1)))
      let fracPart := String.mk (digits.toList.drop (digits.length - (k + 1)))
      sign ++ intPart ++ "." ++ fracPart
    | none => intToStr q.num ++ "/" ++ natToStr q.den

mutual
/-- `JSON.stringify` over the embedded values (no spacing, object fields in
insertion order, `undefined` object entries skipped, `undefined` array
entries serialized as `null`). -/
def stringify : JsVal → String
  | .undefined => "null"
  | .null => "null"
  | .bool true => "true"
  | .bool false => "false"
  | .num q => ratToJson q
  | .str s => "\"" ++ jsonEscape s ++ "\""
  | .arr xs => "[" ++ stringifyList xs ++ "]"
  | .obj fields => "\x7b" ++ stringifyFields fields ++ "\x7d"

def stringifyList : List JsVal → String
  | [] => ""
  | [x] => stringify x
  | x :: rest => stringify x ++ "," ++ stringifyList rest

def stringifyFields : List (String × JsVal) → String
  | [] => ""
  | (_, .undefined) :: rest => stringifyFields rest
  | [(k, v)] => "\"" ++ jsonEscape k ++ "\":" ++ stringify v
  | (k, v) :: rest =>
    "\"" ++ jsonEscape k ++ "\":" ++ stringify v ++ "," ++ stringifyFields rest
end

/-- Characters kept by `replace(/[^\w\s]/g, '')`: word characters and
whitespace survive. -/
def keepWordOrSpace (c : Char) : Bool :=
  c.isAlphanum || c == '_' || c.isWhitespace

/-- `text.replace(/[^\w\s]/g, '')`. -/
def stripNonWord (s : String) : String :=
  String.mk (s.toList.filter keepWordOrSpace)

/-- `extractKeywords` (identical in both source modules): lower-case, remove
non-word characters, split on whitespace, keep words longer than 3
characters, cap at 20.  Splitting at every whitespace character yields empty
fragments for runs, but the length filter removes them, so this agrees with
the JS `split(/\s+/)`. -/
def extractKeywords (text : String) : List String :=
  (((splitWs (stripNonWord (toLowerStr text))).filter
    (fun w => 3 < w.length)).take 20)

/-- `calculateKeywordAlignment`: share of output keywords found among the
goal keywords, over the larger of the two keyword counts; 0.5 when there are
no goal keywords. -/
def calculateKeywordAlignment (outputKeywords goalKeywords : List String) : ℚ :=
  if goalKeywords.length = 0 then 1/2
  else
    let matchCount := (outputKeywords.filter (fun k => goalKeywords.contains k)).length
    (matchCount : ℚ) / (max (max outputKeywords.length goalKeywords.length) 1 : ℕ)

/-! ## Verification layer (`VerificationLayer` in recursive-learning-core.js) -/

/-- Verification strictness mode. -/
inductive Mode where
  | strict : Mode
  | moderate : Mode
  | dev : Mode
deriving DecidableEq

/-- The mode-dependent acceptance thresholds of the `VerificationLayer`
constructor. -/
def thresholds : Mode → ℚ
  | .strict => 9/10
  | .moderate => 7/10
  | .dev => 1/2

/-- Result of one verification check: a score in `[0,1]` and a pass flag. -/
structure CheckResult where
  score : ℚ
  passed : Bool

/-- `verifySprintAlignment`: keyword overlap between the output description
and the flattened sprint goals. -/
def verifySprintAlignment (agentOutput sprintContext : JsVal) : CheckResult :=
  let sprintGoals := strsOf (jsOrVal (getField sprintContext "goals") (.arr []))
  let outputKeywords := extractKeywords (descOf agentOutput)
  let goalKeywords := sprintGoals.flatMap extractKeywords
  let alignmentScore := calculateKeywordAlignment outputKeywords goalKeywords
  { score := alignmentScore, passed := decide (3/5 < alignmentScore) }

/-- The `qualityChecks` object built by `verifyQualityStandards`. -/
structure QualityChecks where
  hasDescription : Bool
  hasValidType : Bool
  hasComplexityEstimate : Bool
  hasProperStructure : Bool

/-- The valid task type enumeration. -/
def validTypes : List String :=
  ["implementation", "debugging", "analysis", "documentation"]

/-- `validateOutputStructure`: the required fields are present
(`!== undefined`). -/
def validateOutputStructure (output : JsVal) : Bool :=
  !jsStrictEq (getField output "description") .undefined &&
  !jsStrictEq (getField output "type") .undefined

/-- The four structural sub-checks of `verifyQualityStandards`.  Note the
JS truthiness guard `agentOutput.complexity && …`: a complexity of exactly 0
is falsy and fails `hasComplexityEstimate`. -/
def qualityChecksOf (agentOutput : JsVal) : QualityChecks where
  hasDescription :=
    match getField agentOutput "description" with
    | .str s => 10 < s.length
    | _ => false
  hasValidType :=
    match getField agentOutput "type" with
    | .str s => !(s == "") && validTypes.contains s
    | _ => false
  hasComplexityEstimate :=
    match getField agentOutput "complexity" with
    | .num q => !(q == 0) && decide (0 ≤ q) && decide (q ≤ 1)
    | _ => false
  hasProperStructure := validateOutputStructure agentOutput

/-- Number of `true` values among a list of booleans
(`Object.values(qualityChecks).filter(Boolean).length`). -/
def boolCount (l : List Bool) : ℕ := (l.filter id).length

/-- `verifyQualityStandards`: fraction of the four sub-checks passing;
passes above 0.75. -/
def verifyQualityStandards (agentOutput : JsVal) : CheckResult :=
  let qc := qualityChecksOf agentOutput
  let qualityScore : ℚ :=
    (boolCount [qc.hasDescription, qc.hasValidType,
      qc.hasComplexityEstimate, qc.hasProperStructure] : ℚ) / 4
  { score := qualityScore, passed := decide (3/4 < qualityScore) }

/-- `calculateConsistencyScore`: type match (30%), complexity proximity
(40%), description keyword overlap (30%), over the factor total 1.0. -/
def calculateConsistencyScore (output : JsVal) (recentOutputs : List JsVal) : ℚ :=
  if recentOutputs.length = 0 then 1
  else
    let n : ℚ := recentOutputs.length
    let sameTypeCount :=
      (recentOutputs.filter
        (fun recent => jsStrictEq (getField recent "type") (getField output "type"))).length
    let c1 := ((sameTypeCount : ℚ) / n) * (3/10)
    let avgComplexity := (recentOutputs.map complexityOr0).sum / n
    let complexityDiff := |complexityOr0 output - avgComplexity|
    let c2 := (max 0 (1 - complexityDiff * 2)) * (4/10)
    let outputKeywords := extractKeywords (descOf output)
    let recentKeywords := recentOutputs.flatMap (fun recent => extractKeywords (descOf recent))
    let c3 := calculateKeywordAlignment outputKeywords recentKeywords * (3/10)
    (c1 + c2 + c3) / (3/10 + 4/10 + 3/10)

/-- One summarized success pattern example. -/
structure SuccessExample where
  timestampMs : ℚ
  score : ℚ
  output : JsVal

/-- Pattern summary as computed by `calculatePatternSummary`. -/
structure PatternSummary where
  avgComplexity : ℚ
  commonKeywords : List String

/-- Per-type success pattern. -/
structure SuccessPattern where
  count : ℕ
  examples : List SuccessExample
  summary : PatternSummary

/-- The empty pattern installed when a type is first seen. -/
def emptyPattern : SuccessPattern :=
  { count := 0, examples := [], summary := { avgComplexity := 0, commonKeywords := [] } }

/-- Fold a keyword occurrence into a count list, keeping first-occurrence
order (JS object property order for `keywordCounts`). -/
def bumpCount : List (String × ℕ) → String → List (String × ℕ)
  | [], k => [(k, 1)]
  | (k', n) :: rest, k =>
    if k' == k then (k', n + 1) :: rest else (k', n) :: bumpCount rest k

/-- Occurrence counts of a keyword list in first-occurrence order. -/
def keywordCounts (ks : List String) : List (String × ℕ) :=
  ks.foldl bumpCount []

/-- Stable insertion for a descending-by-count sort (JS stable
`sort(([,a],[,b]) => b - a)`). -/
def insertCountDesc (a : String × ℕ) : List (String × ℕ) → List (String × ℕ)
  | [] => [a]
  | b :: bs => if a.2 ≤ b.2 then b :: insertCountDesc a bs else a :: b :: bs

/-- Stable descending-by-count sort. -/
def sortCountDesc (l : List (String × ℕ)) : List (String × ℕ) :=
  l.foldl (fun acc a => insertCountDesc a acc) []

/-- `calculatePatternSummary`: average complexity and the five most frequent
keywords of the retained examples. -/
def calculatePatternSummary (examples : List SuccessExample) : PatternSummary :=
  let avgComplexity :=
    (examples.map (fun ex => complexityOr0 ex.output)).sum / examples.length
  let allKeywords := examples.flatMap (fun ex => extractKeywords (descOf ex.output))
  let commonKeywords := ((sortCountDesc (keywordCounts allKeywords)).take 5).map (·.1)
  { avgComplexity, commonKeywords }

/-- `calculateHistoricalCompliance`: complexity proximity (40%), top-keyword
match (40%), flat structural base (20%). -/
def calculateHistoricalCompliance (output : JsVal) (pattern : SuccessPattern) : ℚ :=
  let complexityInRange :=
    decide (|complexityOr0 output - pattern.summary.avgComplexity| < 3/10)
  let c1 : ℚ := if complexityInRange then 4/10 else 0
  let outputKeywords := extractKeywords (descOf output)
  let commonMatches :=
    (outputKeywords.filter
      (fun k => pattern.summary.commonKeywords.contains k)).length
  let c2 := ((commonMatches : ℚ) / (max pattern.summary.commonKeywords.length 1 : ℕ)) * (4/10)
  c1 + c2 + 2/10

/-- `calculateContextElementAccuracy`: keyword overlap between the output
description and the JSON text of a sprint-context element. -/
def calculateContextElementAccuracy (output contextElement : JsVal) : ℚ :=
  calculateKeywordAlignment
    (extractKeywords (descOf output))
    (extractKeywords (stringify contextElement))

/-- The four context elements probed by `verifyContextAccuracy`. -/
def contextElements : List String :=
  ["goals", "requirements", "constraints", "acceptance_criteria"]

/-- `verifyContextAccuracy`: add the overlap score of each *present* context
element, then divide by the number of probed elements (always 4). -/
def verifyContextAccuracy (agentOutput sprintContext : JsVal) : CheckResult :=
  let total := contextElements.foldl
    (fun acc e =>
      if truthy (getField sprintContext e) then
        acc + calculateContextElementAccuracy agentOutput (getField sprintContext e)
      else acc) 0
  let accuracyScore := total / (contextElements.length : ℚ)
  { score := accuracyScore, passed := decide (3/5 < accuracyScore) }

/-- The five check results of one verification call. -/
structure VerificationChecks where
  sprintAlignment : CheckResult
  qualityStandards : CheckResult
  crossAgentConsistency : CheckResult
  historicalCompliance : CheckResult
  contextAccuracy : CheckResult

/-- `calculateVerificationScore`: unweighted mean of the five check scores. -/
def calculateVerificationScore (checks : VerificationChecks) : ℚ :=
  (checks.sprintAlignment.score + checks.qualityStandards.score +
    checks.crossAgentConsistency.score + checks.historicalCompliance.score +
    checks.contextAccuracy.score) / 5

/-- One verification record (`result` in `enforceVerification`); timestamps
are epoch milliseconds. -/
structure VerificationResult where
  timestampMs : ℚ
  mode : Mode
  score : ℚ
  threshold : ℚ
  verified : Bool
  checks : VerificationChecks
  agentOutput : JsVal
  sprintContext : JsVal

/-- Mutable state of one `VerificationLayer` instance. -/
structure VerState where
  mode : Mode
  verificationMemory : List VerificationResult
  successPatterns : List (String × SuccessPattern)
  rollbackHistory : List VerificationResult

/-- `verifyCrossAgentConsistency`: compare against verified outputs of the
last 24 hours; auto-pass with score 1.0 when there are none. -/
def verifyCrossAgentConsistency (st : VerState) (agentOutput : JsVal) (now : ℚ) : CheckResult :=
  let recentOutputs :=
    (st.verificationMemory.filter
      (fun v => v.verified && decide (now - v.timestampMs < 24 * 60 * 60 * 1000))).map
      (·.agentOutput)
  if recentOutputs.length = 0 then { score := 1, passed := true }
  else
    let consistencyScore := calculateConsistencyScore agentOutput recentOutputs
    { score := consistencyScore, passed := decide (1/2 < consistencyScore) }

/-- `verifyHistoricalCompliance`: compare against the stored pattern for the
output's type; auto-pass with score 0.8 when there is none. -/
def verifyHistoricalCompliance (st : VerState) (agentOutput : JsVal) : CheckResult :=
  let pattern? :=
    match getField agentOutput "type" with
    | .str s => alistGet? st.successPatterns s
    | _ => none
  match pattern? with
  | none => { score := 4/5, passed := true }
  | some pattern =>
    let complianceScore := calculateHistoricalCompliance agentOutput pattern
    { score := complianceScore, passed := decide (3/5 < complianceScore) }

/-- The pattern key used by `storeSuccessPattern` (`agentOutput.type ||
'general'`). -/
def storeTypeKey (agentOutput : JsVal) : String :=
  match getField agentOutput "type" with
  | .str s => if s == "" then "general" else s
  | _ => "general"

/-- `storeSuccessPattern`: upsert the per-type pattern, keep the last 10
examples, recompute the summary. -/
def storeSuccessPattern (patterns : List (String × SuccessPattern))
    (r : VerificationResult) : List (String × SuccessPattern) :=
  let key := storeTypeKey r.agentOutput
  let pattern := (alistGet? patterns key).getD emptyPattern
  let examples0 := pattern.examples ++
    [{ timestampMs := r.timestampMs, score := r.score, output := r.agentOutput }]
  let examples := if 10 < examples0.length then jsSliceLast 10 examples0 else examples0
  alistSet patterns key
    { count := pattern.count + 1, examples, summary := calculatePatternSummary examples }

/-- `enforceVerification`: run the five checks, combine, compare with the
mode threshold, record the outcome (pass → success pattern, fail → rollback
history push), and append to verification memory. -/
def enforceVerification (st : VerState) (agentOutput sprintContext : JsVal)
    (now : ℚ) : VerificationResult × VerState :=
  let checks : VerificationChecks :=
    { sprintAlignment := verifySprintAlignment agentOutput sprintContext
      qualityStandards := verifyQualityStandards agentOutput
      crossAgentConsistency := verifyCrossAgentConsistency st agentOutput now
      historicalCompliance := verifyHistoricalCompliance st agentOutput
      contextAccuracy := verifyContextAccuracy agentOutput sprintContext }
  let verificationScore := calculateVerificationScore checks
  let threshold := thresholds st.mode
  let result : VerificationResult :=
    { timestampMs := now, mode := st.mode, score := verificationScore,
      threshold, verified := decide (threshold ≤ verificationScore),
      checks, agentOutput, sprintContext }
  let st1 :=
    if result.verified then
      { st with successPatterns := storeSuccessPattern st.successPatterns result }
    else
      { st with rollbackHistory := st.rollbackHistory ++ [result] }
  let st2 := { st1 with verificationMemory := st1.verificationMemory ++ [result] }
  (result, st2)

/-- The data written by `persistVerificationMemory` (only the rollback
history is truncated, to its last 50 entries). -/
structure PersistedVerificationMemory where
  verificationMemory : List VerificationResult
  successPatterns : List (String × SuccessPattern)
  rollbackHistory : List VerificationResult

/-- `persistVerificationMemory` (the written snapshot; I/O errors are
swallowed in the source and do not change in-memory state). -/
def persistVerificationMemory (st : VerState) : PersistedVerificationMemory :=
  { verificationMemory := st.verificationMemory
    successPatterns := st.successPatterns
    rollbackHistory := jsSliceLast 50 st.rollbackHistory }

/-- The statistics record of `VerificationLayer.getStats`. -/
structure VerStats where
  totalVerifications : ℕ
  successfulVerifications : ℕ
  rollbacks : ℕ
  successRate : ℚ
  patterns : ℕ
  mode : Mode

/-- `getStats`. -/
def getStats (st : VerState) : VerStats :=
  let total := st.verificationMemory.length
  let successful := (st.verificationMemory.filter (·.verified)).length
  { totalVerifications := total
    successfulVerifications := successful
    rollbacks := st.rollbackHistory.length
    successRate := if 0 < total then (successful : ℚ) / total else 0
    patterns := st.successPatterns.length
    mode := st.mode }

/-! ## Critic-fixer cycle (`CriticFixerCycle` in recursive-learning-core.js) -/

/-- `maxCycles` of the `CriticFixerCycle` constructor. -/
def maxCycles : ℕ := 3

/-- `improvementThreshold` of the `CriticFixerCycle` constructor. -/
def improvementThreshold : ℚ := 1/10

/-- The evaluation context handed to the cycle by the orchestrator
(`sprintGoals: sprintContext.goals || []`, …); `sprintGoals = none` models a
missing (`undefined`) goals field of a direct caller, while the orchestrator
always passes `some` (possibly empty, which is truthy in JS). -/
structure EvalCtx where
  sprintGoals : Option (List String)
  constraints : JsVal
  qualityStandards : JsVal

/-- `extractSolutionKeywords`: keywords of the solution's JSON text. -/
def extractSolutionKeywords (solution : JsVal) : List String :=
  extractKeywords (stringify solution)

/-- `evaluateSprintAlignment` (critic factor, 30%): matching solution
keywords against the flattened goal words, scaled by 30% of the goal word
count; defaults to 0.7 when no goals field is supplied. -/
def evaluateSprintAlignment (solution : JsVal) (ctx : EvalCtx) : ℚ :=
  match ctx.sprintGoals with
  | none => 7/10
  | some goals =>
    let solutionKeywords := extractSolutionKeywords solution
    let goalKeywords := goals.flatMap
      (fun goal => (splitWs (toLowerStr goal)).filter (fun w => 3 < w.length))
    let matchingCount :=
      (solutionKeywords.filter (fun k => goalKeywords.contains k)).length
    min 1 ((matchingCount : ℚ) / max ((goalKeywords.length : ℚ) * (3/10)) 1)

/-- `evaluateTechnicalQuality` (critic factor, 25%). -/
def evaluateTechnicalQuality (solution : JsVal) : ℚ :=
  let v1 : ℚ :=
    match getField solution "technicalDetails" with
    | .str t => if 50 < t.length then 2/10 else 0
    | _ => 0
  let v2 : ℚ :=
    match getField solution "architecture" with
    | .obj fields => if 0 < fields.length then 15/100 else 0
    | _ => 0
  let v3 : ℚ :=
    if truthy (getField solution "testing") &&
        truthy (getField (getField solution "testing") "strategy") then 1/10 else 0
  let v4 : ℚ := if truthy (getField solution "errorHandling") then 5/100 else 0
  min 1 (1/2 + v1 + v2 + v3 + v4)

/-- `evaluateImplementationFeasibility` (critic factor, 25%). -/
def evaluateImplementationFeasibility (solution : JsVal) : ℚ :=
  let complexityAdj : ℚ :=
    match getField solution "complexity" with
    | .num q =>
      if !(q == 0) && decide (q ≤ 7/10) then 2/10
      else if !(q == 0) && decide (9/10 < q) then -(1/10)
      else 0
    | _ => 0
  let r1 : ℚ :=
    if truthy (getField solution "resourceRequirements") &&
        truthy (getField (getField solution "resourceRequirements") "realistic")
    then 15/100 else 0
  let r2 : ℚ :=
    if truthy (getField solution "timeline") &&
        truthy (getField (getField solution "timeline") "realistic")
    then 5/100 else 0
  min 1 (max (1/10) (6/10 + complexityAdj + r1 + r2))

/-- `evaluateRiskAssessment` (critic factor, 15%): reward absent risks or a
high mitigation ratio, punish a low one. -/
def evaluateRiskAssessment (solution : JsVal) : ℚ :=
  let adj : ℚ :=
    match getField solution "risks" with
    | .arr risks =>
      let riskCount := risks.length
      let mitigationCount :=
        (risks.filter (fun r => truthy (getField r "mitigation"))).length
      if riskCount = 0 then 2/10
      else if decide (8/10 < (mitigationCount : ℚ) / riskCount) then 3/10
      else if decide ((mitigationCount : ℚ) / riskCount < 1/2) then -(2/10)
      else 0
    | _ => 0
  min 1 (max (1/10) (7/10 + adj))

/-- `evaluateInnovationFactor` (critic factor, 5%). -/
def evaluateInnovationFactor (solution : JsVal) : ℚ :=
  let v1 : ℚ :=
    if truthy (getField solution "innovative") &&
        truthy (getField (getField solution "innovative") "features") then 3/10 else 0
  let v2 : ℚ :=
    if truthy (getField solution "novel") &&
        truthy (getField (getField solution "novel") "approach") then 2/10 else 0
  min 1 (1/2 + v1 + v2)

/-- Factor names with scores and weights, in the iteration order of
`evaluateSolution`. -/
def factorScores (solution : JsVal) (ctx : EvalCtx) : List (String × ℚ × ℚ) :=
  [("sprintAlignment", evaluateSprintAlignment solution ctx, 3/10),
   ("technicalQuality", evaluateTechnicalQuality solution, 25/100),
   ("implementationFeasibility", evaluateImplementationFeasibility solution, 25/100),
   ("riskAssessment", evaluateRiskAssessment solution, 15/100),
   ("innovationFactor", evaluateInnovationFactor solution, 5/100)]

/-- Result of `evaluateSolution`. -/
structure SolutionEval where
  score : ℚ
  strengths : List String
  weaknesses : List String
  improvementAreas : List String

/-- `evaluateSolution`: weighted five-factor score; factors above 0.8 are
strengths, below 0.6 are weaknesses and improvement areas. -/
def evaluateSolution (solution : JsVal) (ctx : EvalCtx) : SolutionEval :=
  let factors := factorScores solution ctx
  { score := (factors.map (fun f => f.2.1 * f.2.2)).sum
    strengths := (factors.filter (fun f => decide (8/10 < f.2.1))).map (·.1)
    weaknesses := (factors.filter (fun f => decide (f.2.1 < 6/10))).map (·.1)
    improvementAreas := (factors.filter (fun f => decide (f.2.1 < 6/10))).map (·.1) }

/-- One critic-phase evaluation entry. -/
structure CriticEval where
  solutionIndex : ℕ
  solution : JsVal
  score : ℚ
  strengths : List String
  weaknesses : List String
  improvementAreas : List String

/-- Stable insertion for the descending-by-score sort of the critic phase. -/
def insertScoreDesc (a : CriticEval) : List CriticEval → List CriticEval
  | [] => [a]
  | b :: bs => if a.score ≤ b.score then b :: insertScoreDesc a bs else a :: b :: bs

/-- Stable descending sort by score (JS `sort((a, b) => b.score - a.score)`). -/
def sortScoreDesc (l : List CriticEval) : List CriticEval :=
  l.foldl (fun acc a => insertScoreDesc a acc) []

/-- `criticPhase`: evaluate every solution and sort best-first. -/
def criticPhase (solutions : List JsVal) (ctx : EvalCtx) : List CriticEval :=
  let evaluations := (solutions.enum).map (fun p =>
    let e := evaluateSolution p.2 ctx
    { solutionIndex := p.1, solution := p.2, score := e.score,
      strengths := e.strengths, weaknesses := e.weaknesses,
      improvementAreas := e.improvementAreas : CriticEval })
  sortScoreDesc evaluations

/-- The synthetic enhancement payloads of `applySolutionFixes`. -/
def enhanceSprintAlignmentV (ctx : EvalCtx) : JsVal :=
  .obj [("alignmentStrategy", .str "Enhanced alignment with sprint goals"),
        ("specificGoalMapping", .arr (((ctx.sprintGoals).getD []).map .str)),
        ("alignmentScore", .str "improved")]

/-- Technical-quality enhancement payload. -/
def enhanceTechnicalQualityV : JsVal :=
  .obj [("addedArchitecture", .str "Layered architecture with clear separation of concerns"),
        ("addedTesting", .str "Unit tests, integration tests, and end-to-end testing strategy"),
        ("addedErrorHandling", .str "Comprehensive error handling and logging"),
        ("codeQuality", .str "Code review process and static analysis integration")]

/-- Feasibility enhancement payload. -/
def enhanceFeasibilityV : JsVal :=
  .obj [("simplifiedApproach", .str "Broken down into smaller, manageable phases"),
        ("resourceOptimization", .str "Optimized resource requirements"),
        ("realisticTimeline", .str "Adjusted timeline based on team capacity"),
        ("dependencyManagement", .str "Clear dependency identification and management")]

/-- Risk-assessment enhancement payload. -/
def enhanceRiskAssessmentV : JsVal :=
  .obj [("identifiedRisks", .arr
          [.obj [("risk", .str "Technical complexity"),
                 ("mitigation", .str "Proof of concept development")],
           .obj [("risk", .str "Timeline pressure"),
                 ("mitigation", .str "Agile approach with MVP focus")],
           .obj [("risk", .str "Resource constraints"),
                 ("mitigation", .str "Staged implementation approach")]]),
        ("contingencyPlans", .str "Multiple fallback options identified")]

/-- Innovation enhancement payload. -/
def enhanceInnovationV : JsVal :=
  .obj [("innovativeAspects", .str "Unique approach to problem solving"),
        ("novelTechniques", .str "Modern best practices and emerging patterns"),
        ("futureProofing", .str "Extensible design for future enhancements")]

/-- `applySolutionFixes`: attach one enhancement payload per weak factor. -/
def applySolutionFixes (solution : JsVal) (improvementAreas : List String)
    (ctx : EvalCtx) : JsVal :=
  improvementAreas.foldl (fun sol area =>
    if area == "sprintAlignment" then
      objSet sol "sprintAlignmentEnhancement" (enhanceSprintAlignmentV ctx)
    else if area == "technicalQuality" then
      objSet sol "technicalEnhancements" enhanceTechnicalQualityV
    else if area == "implementationFeasibility" then
      objSet sol "feasibilityImprovements" enhanceFeasibilityV
    else if area == "riskAssessment" then
      objSet sol "riskMitigations" enhanceRiskAssessmentV
    else if area == "innovationFactor" then
      objSet sol "innovativeEnhancements" enhanceInnovationV
    else sol) solution

/-- One fixer-phase entry. -/
structure FixedSolution where
  originalScore : ℚ
  improvedScore : ℚ
  improvement : ℚ
  solution : JsVal
  appliedFixes : List String

/-- `fixerPhase`: regenerate solutions scoring below 0.8 that have
improvement areas; pass the rest through unchanged. -/
def fixerPhase (criticResults : List CriticEval) (ctx : EvalCtx) : List FixedSolution :=
  criticResults.map (fun cr =>
    if decide (cr.score < 8/10) && decide (0 < cr.improvementAreas.length) then
      let improvedSolution := applySolutionFixes cr.solution cr.improvementAreas ctx
      let newEvaluation := evaluateSolution improvedSolution ctx
      { originalScore := cr.score, improvedScore := newEvaluation.score,
        improvement := newEvaluation.score - cr.score,
        solution := improvedSolution, appliedFixes := cr.improvementAreas }
    else
      { originalScore := cr.score, improvedScore := cr.score, improvement := 0,
        solution := cr.solution, appliedFixes := [] })

/-- One per-cycle improvement record (`calculateImprovement`). -/
structure Improvement where
  originalAverage : ℚ
  improvedAverage : ℚ
  avgImprovement : ℚ
  significantImprovement : Bool
  improvementCount : ℕ

/-- `calculateImprovement`: mean of the improved scores minus mean of the
original scores (for an empty solution list the JS computes `NaN`, which
fails the significance comparison exactly as `0/0 = 0` does here). -/
def calculateImprovement (originalResults : List CriticEval)
    (fixedResults : List FixedSolution) : Improvement :=
  let originalAvg := (originalResults.map (·.score)).sum / originalResults.length
  let improvedAvg := (fixedResults.map (·.improvedScore)).sum / fixedResults.length
  let avgImprovement := improvedAvg - originalAvg
  { originalAverage := originalAvg
    improvedAverage := improvedAvg
    avgImprovement
    significantImprovement := decide (improvementThreshold < avgImprovement)
    improvementCount := (fixedResults.filter (fun r => decide (0 < r.improvement))).length }

/-- The `while (cycle < this.maxCycles)` loop of `evaluateAndImprove`,
structurally recursive on the remaining cycle budget. -/
def eaiLoop : ℕ → List JsVal → EvalCtx → ℕ → List Improvement →
    List JsVal × ℕ × List Improvement
  | 0, sols, _, cycle, acc => (sols, cycle, acc)
  | fuel + 1, sols, ctx, cycle, acc =>
    let criticResults := criticPhase sols ctx
    let fixedSolutions := fixerPhase criticResults ctx
    let improvement := calculateImprovement criticResults fixedSolutions
    let acc' := acc ++ [improvement]
    if improvement.significantImprovement then
      eaiLoop fuel (fixedSolutions.map (·.solution)) ctx (cycle + 1) acc'
    else
      (sols, cycle + 1, acc')

/-- The result record of `evaluateAndImprove`. -/
structure ImprovementCycleResult where
  originalSolutions : List JsVal
  finalSolutions : List JsVal
  cycles : ℕ
  improvements : List Improvement
  finalScores : List ℚ
  avgImprovement : ℚ

/-- `evaluateAndImprove`: up to `maxCycles` critic/fixer cycles, stopping at
the first cycle without significant improvement. -/
def evaluateAndImprove (solutions : List JsVal) (ctx : EvalCtx) : ImprovementCycleResult :=
  let out := eaiLoop maxCycles solutions ctx 0 []
  let finalSolutions := out.1
  let cycles := out.2.1
  let improvements := out.2.2
  let finalEvaluation := criticPhase finalSolutions ctx
  { originalSolutions := solutions
    finalSolutions
    cycles
    improvements
    finalScores := finalEvaluation.map (·.score)
    avgImprovement := (improvements.map (·.avgImprovement)).sum / improvements.length }

/-! ## Elo ranking system (`AgentELORankingSystem` in recursive-learning-core.js)

The expected-score formula takes a real power `10 ^ x`, so this layer is
modelled over `ℝ` (and is `noncomputable`); everything the concrete
counterexamples evaluate lives in the rational layers above. -/

/-- `initialRating` of the constructor. -/
def initialRating : ℝ := 1500

/-- `kFactor` of the constructor. -/
def kFactor : ℝ := 32

/-- The task-result argument of `updateAgentRating` (absent fields are
`false`/`none`, matching falsy `undefined`). -/
structure TaskResultR where
  completed : Bool
  quality : ℝ
  onTime : Bool
  complexity : Option ℝ
  innovative : Bool
  helpedOthers : Bool
  documentation : Bool

/-- The sprint-compliance argument of `updateAgentRating`. -/
structure SprintComplianceR where
  overallCompliance : ℝ

/-- Mutable state of one `AgentELORankingSystem` instance. -/
structure PerfRecord where
  timestampMs : ℚ
  previousRating : ℝ
  newRating : ℝ
  ratingChange : ℝ
  expectedScore : ℝ
  actualScore : ℝ

/-- Rating table and capped per-agent history. -/
structure EloState where
  agentRatings : List (String × ℝ)
  performanceHistory : List (String × List PerfRecord)

/-- The current rating of an agent (`agentRatings.get(agentId) ||
initialRating`). -/
def currentRatingOf (ratings : List (String × ℝ)) (agentId : String) : ℝ :=
  (alistGet? ratings agentId).getD initialRating

/-- `calculateExpectedScore`: logistic Elo expectation against a task
difficulty rating scaled from complexity. -/
noncomputable def calculateExpectedScore (agentRating taskComplexity : ℝ) : ℝ :=
  let taskDifficultyRating := 1500 + (taskComplexity - 1/2) * 800
  let ratingDifference := agentRating - taskDifficultyRating
  1 / (1 + (10 : ℝ) ^ (-ratingDifference / 400))

/-- `calculateActualScore`: additive performance score clamped to `[0, 1]`
(`sprintCompliance.overallCompliance` is guarded by JS truthiness, so a zero
compliance contributes nothing either way; `taskResult.quality &&
taskResult.quality > 0.8` collapses to the comparison for numbers). -/
noncomputable def calculateActualScore (tr : TaskResultR) (sc : SprintComplianceR) : ℝ :=
  let s1 : ℝ := if tr.completed then 4/10 else 0
  let s2 : ℝ := if 8/10 < tr.quality then 1/10 else 0
  let s3 : ℝ := if tr.onTime then 1/10 else 0
  let s4 : ℝ := if sc.overallCompliance = 0 then 0 else sc.overallCompliance * (4/10)
  let s5 : ℝ := if tr.innovative then 1/10 else 0
  let s6 : ℝ := if tr.helpedOthers then 5/100 else 0
  let s7 : ℝ := if tr.documentation then 5/100 else 0
  max 0 (min 1 (s1 + s2 + s3 + s4 + s5 + s6 + s7))

/-- `taskResult.complexity || 0.5`: absent or zero complexity defaults. -/
noncomputable def complexityOrHalf (c : Option ℝ) : ℝ :=
  match c with
  | none => 1/2
  | some x => if x = 0 then 1/2 else x

/-- `classifyPerformance`: the performance band of a rating. -/
noncomputable def classifyPerformance (rating : ℝ) : String :=
  if 2200 ≤ rating then "Master"
  else if 2000 ≤ rating then "Expert"
  else if 1800 ≤ rating then "Advanced"
  else if 1600 ≤ rating then "Intermediate"
  else if 1400 ≤ rating then "Developing"
  else if 1200 ≤ rating then "Novice"
  else "Beginner"

/-- The record returned by `updateAgentRating`. -/
structure RatingUpdate where
  agentId : String
  previousRating : ℝ
  newRating : ℝ
  ratingChange : ℝ
  expectedScore : ℝ
  actualScore : ℝ
  performanceClass : String
  improvement : Bool

/-- `storePerformanceHistory`: append and keep the last 50 records. -/
def storePerformanceHistory (hist : List (String × List PerfRecord))
    (agentId : String) (record : PerfRecord) : List (String × List PerfRecord) :=
  let h := (alistGet? hist agentId).getD [] ++ [record]
  alistSet hist agentId (if 50 < h.length then jsSliceLast 50 h else h)

/-- `updateAgentRating`: Elo update `clamp(current + K * (actual −
expected), 800, 2400)`, rating table and history update. -/
noncomputable def updateAgentRating (es : EloState) (agentId : String)
    (taskResult : TaskResultR) (sprintCompliance : SprintComplianceR) (now : ℚ) :
    RatingUpdate × EloState :=
  let currentRating := currentRatingOf es.agentRatings agentId
  let taskComplexity := complexityOrHalf taskResult.complexity
  let expectedScore := calculateExpectedScore currentRating taskComplexity
  let actualScore := calculateActualScore taskResult sprintCompliance
  let ratingChange := kFactor * (actualScore - expectedScore)
  let newRating := max 800 (min 2400 (currentRating + ratingChange))
  let record : PerfRecord :=
    { timestampMs := now, previousRating := currentRating, newRating,
      ratingChange, expectedScore, actualScore }
  let update : RatingUpdate :=
    { agentId, previousRating := currentRating, newRating, ratingChange,
      expectedScore, actualScore,
      performanceClass := classifyPerformance newRating,
      improvement := decide (0 < ratingChange) }
  (update,
   { agentRatings := alistSet es.agentRatings agentId newRating
     performanceHistory := storePerformanceHistory es.performanceHistory agentId record })

/-! ## Accountability orchestrator
(`RecursiveSprintAccountabilityEngine` in
recursive-sprint-accountability-engine.js) -/

/-- Engine counters. -/
structure EngineStats where
  totalTasks : ℕ
  verificationsPassed : ℕ
  verificationsBlocked : ℕ
  improvementCycles : ℕ
  agentsRanked : ℕ

/-- One continuous-learning cache record. -/
structure LearningData where
  taskType : JsVal
  complexity : JsVal
  verificationScore : ℚ
  sprintCompliance : ℚ
  successful : Bool
  improvements : Bool

/-- Mutable state of one engine instance. -/
structure EngineState where
  ver : VerState
  elo : EloState
  agentPerformanceCache : List (String × List LearningData)
  continuousLearning : Bool
  adaptiveThresholds : Bool
  stats : EngineStats

/-- The engine's sprint-compliance record (rational layer). -/
structure SprintComplianceQ where
  overallCompliance : ℚ
  goalAlignment : ℚ
  constraintAdherence : ℚ
  qualityCompliance : ℚ

/-- `calculateGoalAlignment` (engine): matched task keywords over 30% of the
goal keyword count, capped at 1; 0.8 with no goal keywords. -/
def calculateGoalAlignment (taskData : JsVal) (goals : List String) : ℚ :=
  let taskKeywords := extractKeywords (descOf taskData)
  let goalKeywords := goals.flatMap extractKeywords
  if goalKeywords.length = 0 then 4/5
  else
    let matchCount := (taskKeywords.filter (fun k => goalKeywords.contains k)).length
    min 1 ((matchCount : ℚ) / ((goalKeywords.length : ℚ) * (3/10)))

/-- Substring test (`String.includes`) on character lists. -/
def charsStartWith : List Char → List Char → Bool
  | _, [] => true
  | [], _ :: _ => false
  | a :: as, b :: bs => a == b && charsStartWith as bs

/-- Substring occurrence anywhere in the list. -/
def charsHaveSub : List Char → List Char → Bool
  | [], sub => sub.isEmpty
  | l@(_ :: t), sub => charsStartWith l sub || charsHaveSub t sub

/-- JS `s.includes(sub)`. -/
def strHasSub (s sub : String) : Bool := charsHaveSub s.toList sub.toList

/-- `calculateConstraintAdherence`: penalize excess complexity (−0.3) and
missing required architecture patterns (−0.2), floored at 0. -/
def calculateConstraintAdherence (taskData constraints : JsVal) : ℚ :=
  let p1 : ℚ :=
    let mc := getField constraints "maxComplexity"
    if truthy mc &&
        (match asNum (getField taskData "complexity"), asNum mc with
         | some c, some m => decide (m < c)
         | _, _ => false) then 3/10 else 0
  let p2 : ℚ :=
    let rp := getField constraints "requiredPatterns"
    if truthy rp then
      let hasRequiredPatterns := (strsOf rp).all (fun pat =>
        truthy (getField taskData "architecture") &&
        strHasSub (stringify (getField taskData "architecture")) pat)
      if hasRequiredPatterns then 0 else 2/10
    else 0
  max 0 (1 - p1 - p2)

/-- `calculateQualityCompliance`: boolean quality factors over a 0.5 base,
capped at 1. -/
def calculateQualityCompliance (taskData qualityStandards : JsVal) : ℚ :=
  let c1 : ℚ := if truthy (getField qualityStandards "requireTesting") &&
      truthy (getField taskData "testing") then 3/10 else 0
  let c2 : ℚ := if truthy (getField qualityStandards "requireDocumentation") &&
      truthy (getField taskData "documentation") then 3/10 else 0
  let c3 : ℚ := if truthy (getField qualityStandards "requireArchitecture") &&
      truthy (getField taskData "architecture") then 2/10 else 0
  let c4 : ℚ :=
    let mc := getField qualityStandards "minimumComplexity"
    if truthy mc &&
        (match asNum (getField taskData "complexity"), asNum mc with
         | some c, some m => decide (m ≤ c)
         | _, _ => false) then 2/10 else 0
  min 1 (c1 + c2 + c3 + c4 + 1/2)

/-- `calculateSprintCompliance`: goal alignment ×0.4 + constraint adherence
×0.3 + quality compliance ×0.3, with per-factor defaults when the context
element is missing, capped at 1. -/
def calculateSprintCompliance (taskData sprintContext : JsVal) : SprintComplianceQ :=
  let goalsV := getField sprintContext "goals"
  let goalsPresent := truthy goalsV &&
    (match jsLen goalsV with | some n => decide (0 < n) | none => false)
  let goalAlignment := if goalsPresent then calculateGoalAlignment taskData (strsOf goalsV) else 4/5
  let a1 : ℚ := if goalsPresent then goalAlignment * (4/10) else 32/100
  let constraintsV := getField sprintContext "constraints"
  let constraintAdherence :=
    if truthy constraintsV then calculateConstraintAdherence taskData constraintsV else 9/10
  let a2 : ℚ := if truthy constraintsV then constraintAdherence * (3/10) else 27/100
  let qsV := getField sprintContext "qualityStandards"
  let qualityCompliance :=
    if truthy qsV then calculateQualityCompliance taskData qsV else 4/5
  let a3 : ℚ := if truthy qsV then qualityCompliance * (3/10) else 24/100
  { overallCompliance := min 1 (a1 + a2 + a3)
    goalAlignment, constraintAdherence, qualityCompliance }

/-- The evaluation context the orchestrator passes to the critic-fixer. -/
def evalCtxOf (sprintContext : JsVal) : EvalCtx :=
  { sprintGoals := some (strsOf (jsOrVal (getField sprintContext "goals") (.arr [])))
    constraints := jsOrVal (getField sprintContext "constraints") (.arr [])
    qualityStandards := jsOrVal (getField sprintContext "qualityStandards") (.obj []) }

/-- `generateAlternativeSolutions`: two or three canned variants derived
from the task, the innovative one gated by `allowInnovation !== false`. -/
def generateAlternativeSolutions (taskData sprintContext : JsVal) : List JsVal :=
  let baseComplexity := jsOrQ (getField taskData "complexity") (1/2)
  let baseApproach : JsVal :=
    .obj [("description", jsOrVal (getField taskData "description") (.str "Task implementation")),
          ("type", jsOrVal (getField taskData "type") (.str "implementation")),
          ("complexity", .num (baseComplexity * (8/10))),
          ("technicalDetails", .str "Simplified approach focusing on core requirements"),
          ("architecture", .obj [("pattern", .str "layered"), ("complexity", .str "moderate")]),
          ("testing", .obj [("strategy", .str "unit_tests"), ("coverage", .str "basic")])]
  let alt1 :=
    objSet (objSet (objSet baseApproach
      "name" (.str "Conservative Implementation"))
      "complexity" (.num (baseComplexity * (6/10))))
      "risks" (.arr [.obj [("risk", .str "Technical debt"),
                           ("mitigation", .str "Planned refactoring phase")]])
  let alt2 :=
    objSet (objSet (objSet (objSet baseApproach
      "name" (.str "Balanced Implementation"))
      "complexity" (.num baseComplexity))
      "architecture" (.obj [("pattern", .str "microservices"), ("complexity", .str "moderate")]))
      "testing" (.obj [("strategy", .str "comprehensive"), ("coverage", .str "high")])
  let alt3 :=
    objSet (objSet (objSet (objSet (objSet baseApproach
      "name" (.str "Innovative Implementation"))
      "complexity" (.num (baseComplexity * (12/10))))
      "innovative" (.obj [("features", .bool true)]))
      "novel" (.obj [("approach", .bool true)]))
      "risks" (.arr [.obj [("risk", .str "New technology adoption"),
                           ("mitigation", .str "Proof of concept first")],
                     .obj [("risk", .str "Timeline uncertainty"),
                           ("mitigation", .str "Agile iterations")]])
  [alt1, alt2] ++
    (if jsStrictEq (getField sprintContext "allowInnovation") (.bool false) then []
     else [alt3])

/-- `generateVerificationGuidance`: two remediation strings per failed
check, in check order. -/
def generateVerificationGuidance (checks : VerificationChecks) : List String :=
  (if checks.sprintAlignment.passed then [] else
    ["Review sprint goals and align task objectives",
     "Include specific sprint goal references in task description"]) ++
  (if checks.qualityStandards.passed then [] else
    ["Provide detailed task description (minimum 50 characters)",
     "Specify valid task type and complexity estimate"]) ++
  (if checks.crossAgentConsistency.passed then [] else
    ["Review recent team outputs for consistency patterns",
     "Align with established team conventions"]) ++
  (if checks.historicalCompliance.passed then [] else
    ["Study successful similar tasks from history",
     "Apply proven patterns and approaches"]) ++
  (if checks.contextAccuracy.passed then [] else
    ["Verify understanding of sprint requirements",
     "Include references to specific context elements"])

/-- The improvement-suggestions payload attached to a blocked result. -/
inductive Suggestions where
  | alternatives (count : ℕ) (solutions : List JsVal)
      (improvementCycles : ℕ) (averageImprovement : ℚ) : Suggestions
  | guidance (checks : VerificationChecks) (recommendedActions : List String) : Suggestions

/-- `generateImprovementSuggestions`: rank canned alternatives through the
critic-fixer and return the top three (the guidance fallback only fires for
an empty alternative list, which the generator never produces). -/
def generateImprovementSuggestions (taskData sprintContext : JsVal)
    (verificationResult : VerificationResult) : Suggestions :=
  let alternativeSolutions := generateAlternativeSolutions taskData sprintContext
  if 0 < alternativeSolutions.length then
    let cfr := evaluateAndImprove alternativeSolutions (evalCtxOf sprintContext)
    .alternatives cfr.finalSolutions.length (cfr.finalSolutions.take 3)
      cfr.cycles cfr.avgImprovement
  else
    .guidance verificationResult.checks
      (generateVerificationGuidance verificationResult.checks)

/-- `updateContinuousLearning`: append a learning record to the per-agent
cache, keeping the last 50. -/
def updateContinuousLearning (cache : List (String × List LearningData))
    (agentId : String) (taskData : JsVal) (vr : VerificationResult)
    (sc : SprintComplianceQ) : List (String × List LearningData) :=
  let ld : LearningData :=
    { taskType := getField taskData "type"
      complexity := getField taskData "complexity"
      verificationScore := vr.score
      sprintCompliance := sc.overallCompliance
      successful := vr.verified
      improvements := truthy (getField taskData "enhanced") }
  let h := (alistGet? cache agentId).getD [] ++ [ld]
  alistSet cache agentId (if 50 < h.length then jsSliceLast 50 h else h)

/-- `adjustAdaptiveThresholds`: mode retuning from the verification layer's
success rate, gated on strictly more than 50 recorded verifications. -/
def adjustAdaptiveThresholds (vs : VerState) : VerState :=
  let verificationStats := getStats vs
  if 50 < verificationStats.totalVerifications then
    if 9/10 < verificationStats.successRate then
      match vs.mode with
      | .dev => { vs with mode := .moderate }
      | .moderate => { vs with mode := .strict }
      | .strict => vs
    else if verificationStats.successRate < 3/5 then
      match vs.mode with
      | .strict => { vs with mode := .moderate }
      | .moderate => { vs with mode := .dev }
      | .dev => vs
    else vs
  else vs

/-- The terminal `finalResult` of one task. -/
inductive FinalResult where
  | blocked (verificationScore : ℚ) (suggestions : Suggestions) : FinalResult
  | approved (verificationScore : ℚ) (eloRating : ℝ) (performanceClass : String)
      (sprintCompliance : ℚ) (enhanced : Bool) : FinalResult
  | error (msg : String) : FinalResult

/-- The `processingResult` record of `processAgentTask`. -/
structure TaskProcessingResult where
  agentId : String
  taskId : JsVal
  timestampMs : ℚ
  verificationPhase : Option VerificationResult
  criticFixerPhase : Option ImprovementCycleResult
  eloUpdatePhase : Option RatingUpdate
  improvements : Option Suggestions
  finalResult : FinalResult

/-- The TypeError message of reading `.id` off a null/undefined task. -/
def nullReadIdMsg : String := "TypeError: cannot read property id of null"

/-- The TypeError message of reading `.goals` off a null/undefined context. -/
def nullReadGoalsMsg : String := "TypeError: cannot read property goals of null"

/-- `processAgentTask`.  The inputs are `Option`-wrapped: `none` models a JS
`null`/`undefined` argument, whose property access throws.  The `taskId`
read happens before the `try` block, so a null `taskData` propagates the
exception (`Except.error`); inside the `try`, the first property access on a
null `sprintContext` (reading `goals` in `verifySprintAlignment`) throws
before any state is written and is converted by the `catch` into an `error`
result.  The returned triple also exposes the final value of the caller's
`taskData` object, which phase 2 mutates in place. -/
noncomputable def processAgentTask (st : EngineState) (agentId : String)
    (taskData : Option JsVal) (sprintContext : Option JsVal) (now : ℚ) :
    Except String (TaskProcessingResult × EngineState × JsVal) :=
  match taskData with
  | none => .error nullReadIdMsg
  | some td =>
    let st0 := { st with stats := { st.stats with totalTasks := st.stats.totalTasks + 1 } }
    let base : TaskProcessingResult :=
      { agentId
        taskId := jsOrVal (getField td "id") (.str "task_generated")
        timestampMs := now
        verificationPhase := none, criticFixerPhase := none
        eloUpdatePhase := none, improvements := none
        finalResult := .error "" }
    match sprintContext with
    | none =>
      -- phase 1 throws on `sprintContext.goals`; the catch block captures it
      .ok ({ base with finalResult := .error nullReadGoalsMsg }, st0, td)
    | some ctx =>
      let verPair := enforceVerification st0.ver td ctx now
      let vr := verPair.1
      let st1 := { st0 with ver := verPair.2 }
      .ok (if vr.verified then
        let st2 := { st1 with stats :=
          { st1.stats with verificationsPassed := st1.stats.verificationsPassed + 1 } }
        -- Phase 2: critic-fixer enhancement over ≥ 2 candidate solutions
        let solutionsV := getField td "solutions"
        let runCriticFixer := st2.continuousLearning && truthy solutionsV &&
          (match jsLen solutionsV with | some n => decide (1 < n) | none => false)
        let cfr? : Option ImprovementCycleResult :=
          if runCriticFixer then some (evaluateAndImprove (elemsOf solutionsV) (evalCtxOf ctx))
          else none
        let td1 :=
          if runCriticFixer then
            let cfr := evaluateAndImprove (elemsOf solutionsV) (evalCtxOf ctx)
            if 0 < cfr.finalSolutions.length then
              objSet (objSet (objSet td
                "solutions" (.arr cfr.finalSolutions))
                "enhanced" (.bool true))
                "improvementCycles" (.num cfr.cycles)
            else td
          else td
        let st3 :=
          if runCriticFixer then
            { st2 with stats :=
              { st2.stats with improvementCycles := st2.stats.improvementCycles + 1 } }
          else st2
        -- Phase 3: sprint compliance and Elo update
        let sprintCompliance := calculateSprintCompliance td1 ctx
        let taskResult : TaskResultR :=
          { completed := true
            quality := (vr.score : ℝ)
            onTime := true
            complexity := some ((jsOrQ (getField td1 "complexity") (1/2) : ℚ) : ℝ)
            innovative := truthy (getField td1 "enhanced")
            documentation := truthy (getField td1 "documentation")
            helpedOthers := truthy (getField td1 "collaboration") }
        let eloPair := updateAgentRating st3.elo agentId taskResult
          { overallCompliance := (sprintCompliance.overallCompliance : ℝ) } now
        let st4 := { st3 with elo := eloPair.2, stats :=
          { st3.stats with agentsRanked := st3.stats.agentsRanked + 1 } }
        -- Phase 4: continuous learning
        let st5 :=
          if st4.continuousLearning then
            { st4 with agentPerformanceCache :=
              (updateContinuousLearning st4.agentPerformanceCache agentId td1
                vr sprintCompliance) }
          else st4
        ({ base with
            verificationPhase := some vr
            criticFixerPhase := cfr?
            eloUpdatePhase := some eloPair.1
            finalResult := .approved vr.score eloPair.1.newRating
              eloPair.1.performanceClass sprintCompliance.overallCompliance
              (truthy (getField td1 "enhanced")) },
         st5, td1)
      else
        let st2 := { st1 with stats :=
          { st1.stats with verificationsBlocked := st1.stats.verificationsBlocked + 1 } }
        let suggestions := generateImprovementSuggestions td ctx vr
        let taskResult : TaskResultR :=
          { completed := false
            quality := (vr.score : ℝ)
            onTime := false
            complexity := some ((jsOrQ (getField td "complexity") (1/2) : ℚ) : ℝ)
            innovative := false, documentation := false, helpedOthers := false }
        let eloPair := updateAgentRating st2.elo agentId taskResult
          { overallCompliance := (vr.score : ℝ) } now
        let st3 := { st2 with elo := eloPair.2 }
        ({ base with
            verificationPhase := some vr
            improvements := some suggestions
            finalResult := .blocked vr.score suggestions },
         st3, td))

/-- Engine state as built by the constructor with default options. -/
def verInit : VerState :=
  { mode := .moderate, verificationMemory := [], successPatterns := [], rollbackHistory := [] }

/-- Fresh Elo state. -/
def eloInit : EloState := { agentRatings := [], performanceHistory := [] }

/-- Fresh engine state (default options: moderate mode, continuous learning
and adaptive thresholds enabled). -/
def engineInit : EngineState :=
  { ver := verInit, elo := eloInit, agentPerformanceCache := []
    continuousLearning := true, adaptiveThresholds := true
    stats := { totalTasks := 0, verificationsPassed := 0, verificationsBlocked := 0,
               improvementCycles := 0, agentsRanked := 0 } }

/-- Whether an `Except` result is a normal return. -/
def exceptIsOk {ε α : Type} : Except ε α → Bool
  | .ok _ => true
  | .error _ => false

/-! ## Concrete inputs for counterexamples and witnesses -/

/-- The Scenario A output of the spec:
`{description: "Implement secure auth with JWT", type: "implementation",
complexity: 0.7}`. -/
def scenarioAOutput : JsVal :=
  .obj [("description", .str "Implement secure auth with JWT"),
        ("type", .str "implementation"),
        ("complexity", .num (7/10))]

/-- The Scenario A sprint context:
`{goals: ["Implement secure user authentication"]}`. -/
def scenarioAContext : JsVal :=
  .obj [("goals", .arr [.str "Implement secure user authentication"])]

/-- An output whose description matches the Scenario A goal word-for-word. -/
def alignedOutput : JsVal :=
  .obj [("description", .str "implement secure user authentication")]

/-- A candidate solution that the critic scores between 0.6 and 0.8 on every
factor (so the fixer passes it through unchanged). -/
def plainSolution : JsVal :=
  .obj [("architecture", .obj [("pattern", .str "layered")]),
        ("innovative", .obj [("features", .bool true)]),
        ("notes", .str "ensure secure authentication for user data")]

/-- A task carrying two candidate solutions that passes moderate
verification against the Scenario A context. -/
def twoSolutionTask : JsVal :=
  .obj [("description", .str "implement secure user authentication"),
        ("type", .str "implementation"),
        ("complexity", .num (7/10)),
        ("solutions", .arr [plainSolution, plainSolution])]

/-- A placeholder passed verification record (used to fill dummy states). -/
def dummyChecks : VerificationChecks :=
  { sprintAlignment := { score := 1, passed := true }
    qualityStandards := { score := 1, passed := true }
    crossAgentConsistency := { score := 1, passed := true }
    historicalCompliance := { score := 1, passed := true }
    contextAccuracy := { score := 1, passed := true } }

/-- A verified dummy verification record. -/
def verifiedDummy : VerificationResult :=
  { timestampMs := 0, mode := .moderate, score := 1, threshold := 7/10,
    verified := true, checks := dummyChecks,
    agentOutput := .obj [], sprintContext := .obj [] }

/-- A failed dummy verification record. -/
def failedDummy : VerificationResult :=
  { verifiedDummy with score := 0, verified := false }

/-- A verification-layer state whose rollback history is already full
(50 entries) in moderate mode. -/
def fullRollbackState : VerState :=
  { mode := .moderate, verificationMemory := [], successPatterns := [],
    rollbackHistory := List.replicate 50 failedDummy }

/-- A verification-layer state with exactly 50 recorded verifications, all
verified, in dev mode. -/
def fiftySampleDevState : VerState :=
  { mode := .dev, verificationMemory := List.replicate 50 verifiedDummy,
    successPatterns := [], rollbackHistory := [] }

/-- A verification-layer state with 51 recorded verifications, all verified,
in dev mode (Scenario D). -/
def fiftyOneSampleDevState : VerState :=
  { mode := .dev, verificationMemory := List.replicate 51 verifiedDummy,
    successPatterns := [], rollbackHistory := [] }

/-- Modelled from the spec wording of the adaptive retuning: tighten the
mode by one step, idempotent at strict. -/
def stepTighter : Mode → Mode
  | .dev => .moderate
  | .moderate => .strict
  | .strict => .strict

/-- Modelled from the spec wording of the adaptive retuning: loosen the mode
by one step, idempotent at dev. -/
def stepLooser : Mode → Mode
  | .strict => .moderate
  | .moderate => .dev
  | .dev => .dev

/-- The status tag of a final result. -/
def statusOf : FinalResult → String
  | .blocked _ _ => "blocked"
  | .approved _ _ _ _ _ => "approved"
  | .error _ => "error"

/-- The final value of the caller's `taskData` object after a (normally
returning) `processAgentTask` call. -/
noncomputable def finalTaskDataOf
    (e : Except String (TaskProcessingResult × EngineState × JsVal))
    (d : JsVal) : JsVal :=
  match e with
  | .ok t => t.2.2
  | .error _ => d

/-- The final result of a (normally returning) `processAgentTask` call. -/
noncomputable def finalResultOf
    (e : Except String (TaskProcessingResult × EngineState × JsVal)) : FinalResult :=
  match e with
  | .ok t => t.1.finalResult
  | .error m => .error m

/-- A run of the full pipeline over the two-solution task: verification
passes and the critic-fixer phase rewrites the caller's `taskData`. -/
noncomputable def c8Run : Except String (TaskProcessingResult × EngineState × JsVal) :=
  processAgentTask engineInit "agent-a" (some twoSolutionTask) (some scenarioAContext) 0

/-- A placeholder processing triple. -/
def dummyTriple : TaskProcessingResult × EngineState × JsVal :=
  ({ agentId := "", taskId := .undefined, timestampMs := 0,
     verificationPhase := none, criticFixerPhase := none,
     eloUpdatePhase := none, improvements := none, finalResult := .error "" },
   engineInit, .undefined)

/-- A run with a null sprint context: the in-`try` throw is converted to an
error result. -/
noncomputable def nullContextRun : Except String (TaskProcessingResult × EngineState × JsVal) :=
  processAgentTask engineInit "agent-b" (some (JsVal.obj [])) none 0

/-- The returned triple of `nullContextRun`. -/
noncomputable def nullContextTriple : TaskProcessingResult × EngineState × JsVal :=
  match nullContextRun with
  | .ok t => t
  | .error _ => dummyTriple

/-- A task result with complexity exactly 0 (for the Elo default quirk). -/
def zeroComplexityTask : TaskResultR :=
  { completed := true, quality := 1, onTime := true, complexity := some 0,
    innovative := false, helpedOthers := false, documentation := false }

/-- An output with complexity exactly 0 (for the quality-check quirk). -/
def zeroComplexityOutput : JsVal :=
  .obj [("description", .str "a zero complexity case study"),
        ("type", .str "analysis"),
        ("complexity", .num 0)]

/-- A well-formed task result for the rating-bounds witness. -/
noncomputable def witnessTaskResult : TaskResultR :=
  { completed := true, quality := 1, onTime := true, complexity := some (1/2),
    innovative := false, helpedOthers := false, documentation := false }

/-! ## Theorems -/

/-- C1: every verification record satisfies `verified` exactly when its
overall score — the unweighted mean of the five check scores — reaches the
mode's threshold, and the thresholds are ordered strict > moderate > dev
(0.9 > 0.7 > 0.5). -/
theorem verified_iff_mean_ge_threshold (st : VerState) (agentOutput sprintContext : JsVal)
    (now : ℚ) :
    ((enforceVerification st agentOutput sprintContext now).1.verified = true ↔
      thresholds st.mode ≤ (enforceVerification st agentOutput sprintContext now).1.score) ∧
    (enforceVerification st agentOutput sprintContext now).1.score =
      ((enforceVerification st agentOutput sprintContext now).1.checks.sprintAlignment.score +
       (enforceVerification st agentOutput sprintContext now).1.checks.qualityStandards.score +
       (enforceVerification st agentOutput sprintContext now).1.checks.crossAgentConsistency.score +
       (enforceVerification st agentOutput sprintContext now).1.checks.historicalCompliance.score +
       (enforceVerification st agentOutput sprintContext now).1.checks.contextAccuracy.score) / 5 ∧
    thresholds Mode.dev < thresholds Mode.moderate ∧
    thresholds Mode.moderate < thresholds Mode.strict := by
  refine ⟨?_, rfl, by norm_num [thresholds], by norm_num [thresholds]⟩
  exact decide_eq_true_iff

/-- C5 counterexample: with a success rate of 1.0 computed over exactly 50
samples — "at least 50" per the claim — the adaptive check leaves dev mode
unchanged instead of tightening it to moderate, because the code requires
strictly more than 50 samples. -/
theorem fifty_samples_do_not_tighten :
    (getStats fiftySampleDevState).totalVerifications = 50 ∧
    9/10 < (getStats fiftySampleDevState).successRate ∧
    fiftySampleDevState.mode = Mode.dev ∧
    (adjustAdaptiveThresholds fiftySampleDevState).mode = Mode.dev := by
  refine ⟨by decide, by decide, rfl, by decide⟩

/-- C5 amended: whenever the success rate is computed over **more than 50**
samples, a rate above 0.9 tightens the mode by exactly one step and a rate
below 0.6 loosens it by exactly one step, idempotent at the extremes. -/
theorem adjustAdaptiveThresholds_amended (vs : VerState)
    (h : 50 < (getStats vs).totalVerifications) :
    (9/10 < (getStats vs).successRate →
      (adjustAdaptiveThresholds vs).mode = stepTighter vs.mode) ∧
    ((getStats vs).successRate < 3/5 →
      (adjustAdaptiveThresholds vs).mode = stepLooser vs.mode) := by
  constructor
  · intro hr
    unfold adjustAdaptiveThresholds
    rw [if_pos h, if_pos hr]
    cases hm : vs.mode <;> simp [stepTighter, hm]
  · intro hr
    have hr9 : ¬ (9/10 < (getStats vs).successRate) := by linarith
    unfold adjustAdaptiveThresholds
    rw [if_pos h, if_neg hr9, if_pos hr]
    cases hm : vs.mode <;> simp [stepLooser, hm]

/-- C5 witness: after 51 consecutive verified tasks in dev mode the adaptive
check escalates the mode to moderate. -/
theorem adjustAdaptiveThresholds_amended_witness :
    50 < (getStats fiftyOneSampleDevState).totalVerifications ∧
    (adjustAdaptiveThresholds fiftyOneSampleDevState).mode = Mode.moderate :=
  ⟨by decide,
   (adjustAdaptiveThresholds_amended fiftyOneSampleDevState (by decide)).1 (by decide)⟩

/-- C6 counterexample: for the Scenario A input the sprint-alignment
keyword-overlap score does not exceed 0.6 and the check does not pass
(the score is 2 matches over max(4, 4) keywords = 0.5). -/
theorem scenarioA_alignment_below_threshold :
    ¬ (3/5 < (verifySprintAlignment scenarioAOutput scenarioAContext).score ∧
       (verifySprintAlignment scenarioAOutput scenarioAContext).passed = true) := by
  decide

/-- C6 amended: for the Scenario A input the sprint-alignment score equals
exactly 0.5, which is below the 0.6 pass bar, so the check fails. -/
theorem scenarioA_alignment_amended :
    (verifySprintAlignment scenarioAOutput scenarioAContext).score = 1/2 ∧
    (verifySprintAlignment scenarioAOutput scenarioAContext).passed = false :=
  ⟨by decide, by decide⟩

/-- C7 counterexample: with exactly one context element present (goals,
whose own overlap score is 1), the context-accuracy score is 1/4, not the
element's score: the sum is divided by the four probed element names, not by
the number of present elements. -/
theorem contextAccuracy_single_element_quartered :
    truthy (getField scenarioAContext "goals") = true ∧
    truthy (getField scenarioAContext "requirements") = false ∧
    truthy (getField scenarioAContext "constraints") = false ∧
    truthy (getField scenarioAContext "acceptance_criteria") = false ∧
    calculateContextElementAccuracy alignedOutput (getField scenarioAContext "goals") = 1 ∧
    (verifyContextAccuracy alignedOutput scenarioAContext).score = 1/4 := by
  refine ⟨rfl, rfl, rfl, rfl, by decide, by decide⟩

/-- The accumulating loop of `verifyContextAccuracy` equals the sum of the
present elements' scores. -/
theorem foldl_accuracy_eq_filter_sum (agentOutput sprintContext : JsVal)
    (els : List String) (init : ℚ) :
    els.foldl (fun acc e =>
      if truthy (getField sprintContext e) then
        acc + calculateContextElementAccuracy agentOutput (getField sprintContext e)
      else acc) init =
    init + ((els.filter (fun e => truthy (getField sprintContext e))).map
      (fun e => calculateContextElementAccuracy agentOutput (getField sprintContext e))).sum := by
  induction els generalizing init with
  | nil => simp
  | cons a t ih =>
    simp only [List.foldl_cons, List.filter_cons]
    by_cases h : truthy (getField sprintContext a) = true
    · simp only [h, if_true]
      rw [ih]
      simp only [List.map_cons, List.sum_cons]
      ring
    · simp only [h, Bool.false_eq_true, if_false]
      rw [ih]

/-- C7 amended: the context-accuracy score is the sum of the overlap scores
of the *present* context elements divided by 4 (the number of probed element
names), not the average over the present elements. -/
theorem verifyContextAccuracy_amended (agentOutput sprintContext : JsVal) :
    (verifyContextAccuracy agentOutput sprintContext).score =
      ((contextElements.filter (fun e => truthy (getField sprintContext e))).map
        (fun e => calculateContextElementAccuracy agentOutput (getField sprintContext e))).sum
      / 4 := by
  show (List.foldl _ 0 contextElements) / (contextElements.length : ℚ) = _
  rw [foldl_accuracy_eq_filter_sum]
  norm_num [contextElements]

/-- C9 counterexample: a failed verification appended to a rollback history
already holding 50 entries leaves 51 entries in memory — the in-memory list
is not capped at 50 and nothing is evicted. -/
theorem rollbackHistory_exceeds_cap :
    (enforceVerification fullRollbackState (.obj []) (.obj []) 0).1.verified = false ∧
    (enforceVerification fullRollbackState (.obj []) (.obj []) 0).2.rollbackHistory.length = 51 :=
  ⟨by decide, by decide⟩

/-- C9 amended: the in-memory rollback history grows without bound; it is
the *persisted* snapshot that holds at most 50 entries, namely the most
recent 50 (dropping from the front, oldest first). -/
theorem persisted_rollback_cap (st : VerState) (agentOutput sprintContext : JsVal) (now : ℚ) :
    (persistVerificationMemory
      (enforceVerification st agentOutput sprintContext now).2).rollbackHistory.length ≤ 50 ∧
    (persistVerificationMemory
      (enforceVerification st agentOutput sprintContext now).2).rollbackHistory =
      jsSliceLast 50 (enforceVerification st agentOutput sprintContext now).2.rollbackHistory := by
  refine ⟨?_, rfl⟩
  show (jsSliceLast 50 _).length ≤ 50
  simp only [jsSliceLast, List.length_drop]
  omega

/-- C2: for any agent whose current rating is within [800, 2400], any task
result with complexity in [0, 1] and any sprint-compliance value, the new
rating produced by `updateAgentRating` stays within [800, 2400] (the update
clamps `current + K * (actual − expected)` into that interval). -/
theorem updateAgentRating_bounds (es : EloState) (agentId : String)
    (taskResult : TaskResultR) (sprintCompliance : SprintComplianceR) (now : ℚ)
    (h1 : 800 ≤ currentRatingOf es.agentRatings agentId)
    (h2 : currentRatingOf es.agentRatings agentId ≤ 2400)
    (h3 : ∀ c, taskResult.complexity = some c → 0 ≤ c ∧ c ≤ 1) :
    800 ≤ (updateAgentRating es agentId taskResult sprintCompliance now).1.newRating ∧
    (updateAgentRating es agentId taskResult sprintCompliance now).1.newRating ≤ 2400 := by
  constructor
  · show (800:ℝ) ≤ max 800 (min 2400 _)
    exact le_max_left _ _
  · show max (800:ℝ) (min 2400 _) ≤ 2400
    exact max_le (by norm_num) (min_le_left _ _)

/-- C2 witness: a fresh agent at the initial rating 1500 with complexity 0.5
ends within bounds. -/
theorem updateAgentRating_bounds_witness :
    (800 ≤ currentRatingOf eloInit.agentRatings "agent-a" ∧
      currentRatingOf eloInit.agentRatings "agent-a" ≤ 2400 ∧
      witnessTaskResult.complexity = some (1/2)) ∧
    800 ≤ (updateAgentRating eloInit "agent-a" witnessTaskResult ⟨1⟩ 0).1.newRating ∧
    (updateAgentRating eloInit "agent-a" witnessTaskResult ⟨1⟩ 0).1.newRating ≤ 2400 := by
  refine ⟨⟨?_, ?_, rfl⟩, ?_⟩
  · show (800:ℝ) ≤ (Option.getD (alistGet? [] "agent-a") initialRating)
    norm_num [alistGet?, initialRating]
  · show (Option.getD (alistGet? [] "agent-a") initialRating) ≤ (2400:ℝ)
    norm_num [alistGet?, initialRating]
  · refine updateAgentRating_bounds eloInit "agent-a" witnessTaskResult ⟨1⟩ 0 ?_ ?_ ?_
    · show (800:ℝ) ≤ (Option.getD (alistGet? [] "agent-a") initialRating)
      norm_num [alistGet?, initialRating]
    · show (Option.getD (alistGet? [] "agent-a") initialRating) ≤ (2400:ℝ)
      norm_num [alistGet?, initialRating]
    · intro c hc
      have hhalf : (1/2 : ℝ) = c := by
        have h := hc
        simp only [witnessTaskResult, Option.some.injEq] at h
        exact h
      rw [← hhalf]
      norm_num

/-- C10: a complexity of exactly 0, although inside the documented range
[0, 1], is treated as absent: the `hasComplexityEstimate` sub-check is false
(capping the quality score at 3/4), and `updateAgentRating` computes its
expected score from the default complexity 0.5 instead of 0. -/
theorem complexity_zero_treated_as_absent (agentOutput : JsVal)
    (h : getField agentOutput "complexity" = JsVal.num 0)
    (es : EloState) (agentId : String) (taskResult : TaskResultR)
    (sprintCompliance : SprintComplianceR) (now : ℚ)
    (h2 : taskResult.complexity = some 0) :
    (qualityChecksOf agentOutput).hasComplexityEstimate = false ∧
    (verifyQualityStandards agentOutput).score ≤ 3/4 ∧
    (updateAgentRating es agentId taskResult sprintCompliance now).1.expectedScore =
      calculateExpectedScore (currentRatingOf es.agentRatings agentId) (1/2) := by
  have hc : (qualityChecksOf agentOutput).hasComplexityEstimate = false := by
    simp [qualityChecksOf, h]
  refine ⟨hc, ?_, ?_⟩
  · show (boolCount [(qualityChecksOf agentOutput).hasDescription,
      (qualityChecksOf agentOutput).hasValidType,
      (qualityChecksOf agentOutput).hasComplexityEstimate,
      (qualityChecksOf agentOutput).hasProperStructure] : ℚ) / 4 ≤ 3/4
    rw [hc]
    have hb : ∀ a b c : Bool, boolCount [a, b, false, c] ≤ 3 := by decide
    have hn := hb (qualityChecksOf agentOutput).hasDescription
      (qualityChecksOf agentOutput).hasValidType
      (qualityChecksOf agentOutput).hasProperStructure
    have hq : (boolCount [(qualityChecksOf agentOutput).hasDescription,
      (qualityChecksOf agentOutput).hasValidType, false,
      (qualityChecksOf agentOutput).hasProperStructure] : ℚ) ≤ 3 := by exact_mod_cast hn
    linarith
  · show calculateExpectedScore (currentRatingOf es.agentRatings agentId)
      (complexityOrHalf taskResult.complexity) = _
    rw [h2]
    norm_num [complexityOrHalf]

/-- C10 witness: a concrete zero-complexity output and task result. -/
theorem complexity_zero_treated_as_absent_witness :
    (getField zeroComplexityOutput "complexity" = JsVal.num 0 ∧
      zeroComplexityTask.complexity = some 0) ∧
    (qualityChecksOf zeroComplexityOutput).hasComplexityEstimate = false ∧
    (verifyQualityStandards zeroComplexityOutput).score ≤ 3/4 ∧
    (updateAgentRating eloInit "agent-c" zeroComplexityTask ⟨1⟩ 0).1.expectedScore =
      calculateExpectedScore (currentRatingOf eloInit.agentRatings "agent-c") (1/2) :=
  ⟨⟨rfl, rfl⟩,
   complexity_zero_treated_as_absent zeroComplexityOutput rfl eloInit "agent-c"
     zeroComplexityTask ⟨1⟩ 0 rfl⟩

/-- The cycle counter of the critic-fixer loop never exceeds the remaining
fuel. -/
theorem eaiLoop_cycle_le (fuel : ℕ) (sols : List JsVal) (ctx : EvalCtx)
    (cycle : ℕ) (acc : List Improvement) :
    (eaiLoop fuel sols ctx cycle acc).2.1 ≤ cycle + fuel := by
  induction fuel generalizing sols cycle acc with
  | zero => simp [eaiLoop]
  | succ n ih =>
    simp only [eaiLoop]
    split
    · exact le_trans (ih _ _ _) (by omega)
    · show cycle + 1 ≤ cycle + (n + 1)
      omega

/-- Every non-final cycle of the critic-fixer loop had a significant
improvement. -/
theorem eaiLoop_improvements (fuel : ℕ) (sols : List JsVal) (ctx : EvalCtx)
    (cycle : ℕ) (acc : List Improvement)
    (hacc : ∀ imp ∈ acc, improvementThreshold < imp.avgImprovement) :
    ∀ imp ∈ (eaiLoop fuel sols ctx cycle acc).2.2.dropLast,
      improvementThreshold < imp.avgImprovement := by
  induction fuel generalizing sols cycle acc with
  | zero =>
    intro imp hm
    exact hacc imp (List.dropLast_subset _ hm)
  | succ n ih =>
    simp only [eaiLoop]
    split
    next hsig =>
      apply ih
      intro imp hm
      rcases List.mem_append.mp hm with hmem | hmem
      · exact hacc imp hmem
      · rw [List.mem_singleton] at hmem
        subst hmem
        exact of_decide_eq_true hsig
    next hsig =>
      intro imp hm
      rw [List.dropLast_concat] at hm
      exact hacc imp hm

/-- C4: on any non-empty solution set, `evaluateAndImprove` runs at most 3
cycles, and every cycle except possibly the last had an average improvement
above 0.1 — so the loop stops within the first cycle whose average
improvement is at most 0.1. -/
theorem evaluateAndImprove_cycles_bounded (solutions : List JsVal) (ctx : EvalCtx)
    (h : solutions ≠ []) :
    (evaluateAndImprove solutions ctx).cycles ≤ 3 ∧
    ∀ imp ∈ (evaluateAndImprove solutions ctx).improvements.dropLast,
      1/10 < imp.avgImprovement := by
  constructor
  · have hb := eaiLoop_cycle_le maxCycles solutions ctx 0 []
    simpa [evaluateAndImprove, maxCycles] using hb
  · intro imp hm
    have hi := eaiLoop_improvements maxCycles solutions ctx 0 [] (by simp)
    exact hi imp hm

/-- C4 witness: a single empty solution converges. -/
theorem evaluateAndImprove_cycles_bounded_witness :
    ([JsVal.obj []] ≠ ([] : List JsVal)) ∧
    (evaluateAndImprove [JsVal.obj []] (evalCtxOf scenarioAContext)).cycles ≤ 3 ∧
    ∀ imp ∈ (evaluateAndImprove [JsVal.obj []]
        (evalCtxOf scenarioAContext)).improvements.dropLast,
      1/10 < imp.avgImprovement :=
  ⟨by simp,
   evaluateAndImprove_cycles_bounded [JsVal.obj []] (evalCtxOf scenarioAContext) (by simp)⟩

/-- C3 counterexample: with a null `taskData` the pre-`try` read of
`taskData.id` throws and the exception propagates out of `processAgentTask`
instead of being converted to an error result. -/
theorem null_taskData_propagates :
    processAgentTask engineInit "agent-a" none (some scenarioAContext) 0 =
      Except.error nullReadIdMsg := rfl

/-- C3 amended: for every non-null `taskData`, `processAgentTask` returns a
TaskProcessingResult and never propagates; when a phase throws (the
repository's throwing input is a null `sprintContext`, whose `goals` read
fails inside phase 1), the returned `finalResult` has status error with the
message captured, and neither the rating state nor the verification state
has been touched by that call. -/
theorem processAgentTask_total_amended (st : EngineState) (agentId : String)
    (td : JsVal) (sprintContext : Option JsVal) (now : ℚ) :
    exceptIsOk (processAgentTask st agentId (some td) sprintContext now) = true ∧
    (∀ r st' td', processAgentTask st agentId (some td) none now = .ok (r, st', td') →
      r.finalResult = FinalResult.error nullReadGoalsMsg ∧
      st'.elo = st.elo ∧ st'.ver = st.ver) := by
  constructor
  · cases sprintContext with
    | none => rfl
    | some ctx => rfl
  · intro r st' td' h
    simp only [processAgentTask, Except.ok.injEq, Prod.mk.injEq] at h
    obtain ⟨hr, hst, htd⟩ := h
    refine ⟨?_, ?_, ?_⟩
    · rw [← hr]
    · rw [← hst]
    · rw [← hst]

/-- C3 witness: the concrete null-context run returns normally with an error
result and unchanged ratings. -/
theorem processAgentTask_total_amended_witness :
    exceptIsOk nullContextRun = true ∧
    nullContextTriple.1.finalResult = FinalResult.error nullReadGoalsMsg ∧
    nullContextTriple.2.1.elo = engineInit.elo ∧
    nullContextTriple.2.1.ver = engineInit.ver :=
  ⟨(processAgentTask_total_amended engineInit "agent-b" (JsVal.obj []) none 0).1,
   (processAgentTask_total_amended engineInit "agent-b" (JsVal.obj []) none 0).2
     nullContextTriple.1 nullContextTriple.2.1 nullContextTriple.2.2 rfl⟩

/-- C8 counterexample: on the approved path with two candidate solutions the
pipeline mutates the submitted `taskData` in place — after the call the
caller's object carries the new fields `enhanced: true` and
`improvementCycles: 1` that were absent at submission. -/
theorem taskData_mutated_on_approved_path :
    statusOf (finalResultOf c8Run) = "approved" ∧
    getField twoSolutionTask "enhanced" = JsVal.undefined ∧
    getField (finalTaskDataOf c8Run JsVal.undefined) "enhanced" = JsVal.bool true ∧
    getField (finalTaskDataOf c8Run JsVal.undefined) "improvementCycles" = JsVal.num 1 :=
  ⟨rfl, rfl, rfl, rfl⟩

/-- C8 amended: the submitted `taskData` is returned unchanged on the
blocked path; on the approved path it is either unchanged or extended in
place by the critic-fixer phase, which overwrites `solutions` and adds
`enhanced` and `improvementCycles`. -/
theorem processAgentTask_taskData_frame (st : EngineState) (agentId : String)
    (td ctx : JsVal) (now : ℚ) :
    (finalTaskDataOf (processAgentTask st agentId (some td) (some ctx) now) td = td ∨
      ∃ sols cycles,
        finalTaskDataOf (processAgentTask st agentId (some td) (some ctx) now) td =
        objSet (objSet (objSet td "solutions" sols) "enhanced" (.bool true))
          "improvementCycles" (.num cycles)) ∧
    ((enforceVerification st.ver td ctx now).1.verified = false →
      finalTaskDataOf (processAgentTask st agentId (some td) (some ctx) now) td = td) := by
  constructor
  · simp only [processAgentTask, finalTaskDataOf]
    split
    · split
      · split
        · exact Or.inr ⟨_, _, rfl⟩
        · exact Or.inl rfl
      · exact Or.inl rfl
    · exact Or.inl rfl
  · intro h
    simp only [processAgentTask, finalTaskDataOf]
    rw [h]
    simp

/-- C8 witness: a blocked run leaves the caller's `taskData` untouched. -/
theorem processAgentTask_taskData_frame_witness :
    (enforceVerification engineInit.ver (JsVal.obj []) (JsVal.obj []) 0).1.verified = false ∧
    finalTaskDataOf
      (processAgentTask engineInit "agent-a" (some (JsVal.obj [])) (some (JsVal.obj [])) 0)
      (JsVal.obj []) = JsVal.obj [] :=
  ⟨by decide,
   (processAgentTask_taskData_frame engineInit "agent-a" (JsVal.obj []) (JsVal.obj []) 0).2
     (by decide)⟩

end Oversight
